import Mathlib

/-!
Shallow embedding of the docker-healthcheck-exporter collector
(src/docker_health_exporter.py) and verification of its specification
claims.

Modelling conventions:
- Python dicts with string keys become insertion-ordered association
  lists; `get` with a default becomes a `find?`-based lookup.
- A Python attribute or key that may be missing, or a JSON value that may
  be null, becomes an `Option`.
- Code that may raise returns through `Option`/`Except` or an explicit
  error component; a `try`/`except` block becomes a `match` on that
  component, reproducing exactly the handler the source installs.
- The prometheus-client collaborator is modelled by its documented
  contract at the two call sites the source uses: `labels(**kwargs)`
  raises when the keyword names do not match the gauge's label names
  (which, for the dict the source builds, happens exactly when the
  configured label-name list contains a duplicate), and `set(v)` coerces
  its argument to a number and raises `ValueError` when the value is a
  string that does not parse (integer-formatted strings parse; the
  numeric domain is modelled as `Int`).
-/

namespace DockerHealth

/-- Python `d.get(k, default)` over an insertion-ordered association list
of string keys and string values. -/
def lookupD (ls : List (String × String)) (k d : String) : String :=
  match ls.find? (fun p => p.1 == k) with
  | some p => p.2
  | none => d

/-- A value stored in the container-data dictionary built by
`get_container_health`: either a string field or the integer failure
streak. -/
inductive Val where
  | s (v : String) : Val
  | i (v : Int) : Val
deriving DecidableEq

/-- Python `d.get(k)` over the heterogeneous container-data dictionary. -/
def dget? (d : List (String × Val)) (k : String) : Option Val :=
  (d.find? (fun p => p.1 == k)).map (fun p => p.2)

/-- Python `d[k] = v`: replaces the value at an existing key in place,
otherwise appends (Python dicts keep the original key position on
overwrite). -/
def dset : List (String × Val) → String → Val → List (String × Val)
  | [], k, v => [(k, v)]
  | (k', v') :: rest, k, v =>
      if k' == k then (k', v) :: rest else (k', v') :: dset rest k v

/-- The `HEALTH_STATUS` dict literal of the source (lines 61-66). -/
def HEALTH_STATUS : List (String × Nat) :=
  [("unhealthy", 0), ("healthy", 1), ("starting", 2), ("none", 3)]

/-- `HEALTH_STATUS.get(st, 3)`: the health classifier applied at metric
emission (line 225 of the source). Total over all strings. -/
def healthStatusGet (st : String) : Nat :=
  match HEALTH_STATUS.find? (fun p => p.1 == st) with
  | some p => p.2
  | none => 3

/-- The spec's `HealthState` enum (section 3 of the spec). -/
inductive HealthState where
  | Unhealthy
  | Healthy
  | Starting
  | Unknown
deriving DecidableEq

/-- Ordinal gauge value of a `HealthState` per the spec's fixed mapping. -/
def HealthState.gauge : HealthState → Nat
  | .Unhealthy => 0
  | .Healthy => 1
  | .Starting => 2
  | .Unknown => 3

/-- Modelled from the spec: the spec-side classifier `classify` of
section 4.2, written from the spec's words so it can be compared with the
source's dict lookup `healthStatusGet`. -/
def classifySpec (st : String) : HealthState :=
  if st = "unhealthy" then .Unhealthy
  else if st = "healthy" then .Healthy
  else if st = "starting" then .Starting
  else .Unknown

/-- `BASE_LABELS` (line 30 of the source). -/
def BASE_LABELS : List String :=
  ["container_id", "container_name", "image", "project", "service"]

/-- The `ALL_LABELS` computation (lines 29-44 of the source),
parameterised by the `NO_DEFAULT_LABELS` flag and by `LABEL_MAPPINGS`
given as an ordered association list of
(container-label-key, metric-label-name) pairs; the custom labels are
`list(LABEL_MAPPINGS.values())`. -/
def ALL_LABELS (noDefaults : Bool) (labelMappings : List (String × String)) :
    List String :=
  if noDefaults then
    if labelMappings.map Prod.snd = [] then ["container_id"]
    else labelMappings.map Prod.snd
  else BASE_LABELS ++ labelMappings.map Prod.snd

/-- A container's `image` attribute: the `tags` attribute may be missing
(`none`) or an empty list, in which case the source truncates the image
id. -/
structure ImageInfo where
  tags : Option (List String)
  id : String
deriving DecidableEq

/-- The `State.Health` block of a descriptor: the `Status` key may be
missing (`none`, which makes line 162's direct indexing raise `KeyError`)
and `FailingStreak` is read with `.get(_, 0)`. -/
structure HealthInfo where
  status : Option String
  failingStreak : Option Int
deriving DecidableEq

/-- The `State` dict of a descriptor; `health = none` models the absence
of the `Health` key. -/
structure StateInfo where
  health : Option HealthInfo
deriving DecidableEq

/-- The `Config` dict of a descriptor; `labels = none` models a null
`Labels` entry (Docker reports `Labels: null` for label-less containers),
on which Python's `None.get` raises `AttributeError`. -/
structure ConfigInfo where
  labels : Option (List (String × String))
deriving DecidableEq

/-- `container.attrs`: the `Config` and `State` keys may each be
missing. -/
structure ContainerAttrs where
  config : Option ConfigInfo
  state : Option StateInfo
deriving DecidableEq

/-- A raw container descriptor; each `none` models a missing attribute
(the source probes them with `hasattr`). -/
structure Container where
  id : Option String
  name : Option String
  image : Option ImageInfo
  attrs : Option ContainerAttrs
deriving DecidableEq

/-- Label access performed by `should_monitor_container` (line 104):
`container.attrs.get('Config', dict()).get('Labels', dict())`.
`none` means the access raised — either `attrs` is missing or `Labels`
is null — and control jumps to the function's `except` handler. -/
def filterLabels (c : Container) : Option (List (String × String)) :=
  match c.attrs with
  | none => none
  | some a =>
    match a.config with
    | none => some []
    | some cfg =>
      match cfg.labels with
      | none => none
      | some ls => some ls

/-- Python `str.lower()` modelled as a character-wise map over the
string's characters (`Char.toLower` matches Python's lowering on the
ASCII values the source compares against). -/
def pyLower (s : String) : String := String.mk (s.data.map Char.toLower)

/-- `should_monitor_container` (lines 92-120): explicit opt-out via the
`prometheus.health.enabled` label wins; in opt-in-only mode the label
must lowercase to `true`; any exception is caught and yields `false`. -/
def should_monitor_container (c : Container) (optInOnly : Bool) : Bool :=
  match filterLabels c with
  | none => false
  | some labels =>
    if pyLower (lookupD labels "prometheus.health.enabled" "") == "false" then
      false
    else if optInOnly &&
        (pyLower (lookupD labels "prometheus.health.enabled" "") != "true") then
      false
    else true

/-- Label access performed by `get_container_health` (line 145): same as
the filter's, except a missing `attrs` attribute yields the empty dict
via the `hasattr` guard; `none` still models a null `Labels` entry whose
later `.get` raises. -/
def inspectorLabels (c : Container) : Option (List (String × String)) :=
  match c.attrs with
  | none => some []
  | some a =>
    match a.config with
    | none => some []
    | some cfg =>
      match cfg.labels with
      | none => none
      | some ls => some ls

/-- The `Health` block lookup of lines 160-161: present only when `attrs`
exists and its `State` contains a `Health` key. -/
def healthBlock (c : Container) : Option HealthInfo :=
  match c.attrs with
  | none => none
  | some a =>
    match a.state with
    | none => none
    | some st => st.health

/-- `container.id[:12]` with the `hasattr` fallback to `"unknown"`
(line 136, and identically in the `except` handler at line 186). -/
def idPrefix (c : Container) : String :=
  match c.id with
  | some i => i.take 12
  | none => "unknown"

/-- Image-name resolution of lines 139-142: prefer the first tag, fall
back to the truncated image id, fall back to `"unknown"`. -/
def imageName (c : Container) : String :=
  match c.image with
  | none => "unknown"
  | some im =>
    match im.tags with
    | some (t :: _) => t
    | some [] => im.id.take 12
    | none => im.id.take 12

/-- Project resolution of lines 148 and 152-153: the compose project
label, falling back to the swarm stack namespace only when the compose
value is empty (Python truthiness on a string). -/
def resolveProject (labels : List (String × String)) : String :=
  if lookupD labels "com.docker.compose.project" "" = "" then
    lookupD labels "com.docker.stack.namespace" ""
  else lookupD labels "com.docker.compose.project" ""

/-- Service resolution of lines 149 and 154-155, independent of the
project fallback. -/
def resolveService (labels : List (String × String)) : String :=
  if lookupD labels "com.docker.compose.service" "" = "" then
    lookupD labels "com.docker.swarm.service.name" ""
  else lookupD labels "com.docker.compose.service" ""

/-- The minimal result dict built by the `except` handler of
`get_container_health` (lines 182-189). -/
def minimalResult (c : Container) : List (String × Val) :=
  [("container_id", Val.s (idPrefix c)),
   ("health_status", Val.s "none"),
   ("failure_streak", Val.i 0)]

/-- The full result dict literal of lines 167-175. -/
def baseResult (c : Container) (labels : List (String × String))
    (hs : String) (fs : Int) : List (String × Val) :=
  [("container_id", Val.s (idPrefix c)),
   ("container_name", Val.s (c.name.getD "unknown")),
   ("image", Val.s (imageName c)),
   ("project", Val.s (resolveProject labels)),
   ("service", Val.s (resolveService labels)),
   ("health_status", Val.s hs),
   ("failure_streak", Val.i fs)]

/-- The custom-label loop of lines 177-180 applied on top of the result
dict: for each (container-label-key, metric-label-name) pair, assign
`result[metricLabel] = labels.get(containerLabel, '')`. -/
def buildResult (c : Container) (labels : List (String × String))
    (hs : String) (fs : Int) (lm : List (String × String)) :
    List (String × Val) :=
  lm.foldl (fun r p => dset r p.2 (Val.s (lookupD labels p.1 ""))) (baseResult c labels hs fs)

/-- `get_container_health` (lines 122-191): the `try` body falls to the
`except` handler (`minimalResult`) when the null label map raises at
line 148 or the missing `Status` key raises at line 162; otherwise it
builds the full dict, with health `"none"`/streak 0 when no `Health`
block is present. -/
def get_container_health (c : Container) (lm : List (String × String)) :
    List (String × Val) :=
  match inspectorLabels c with
  | none => minimalResult c
  | some labels =>
    match healthBlock c with
    | none => buildResult c labels "none" 0 lm
    | some h =>
      match h.status with
      | none => minimalResult c
      | some hs => buildResult c labels hs (h.failingStreak.getD 0) lm

/-- The failure streak that the non-exception inspection path reads from
the descriptor (0 when the `FailingStreak` key is absent, and on every
path that does not read a health block). -/
def inspectedStreak (c : Container) : Int :=
  match inspectorLabels c with
  | none => 0
  | some _ =>
    match healthBlock c with
    | none => 0
    | some h =>
      match h.status with
      | none => 0
      | some _ => h.failingStreak.getD 0

/-- Which of the two gauges a write targets. -/
inductive GaugeId where
  | health
  | streak
deriving DecidableEq

/-- One `labels(...).set(...)` call that completed: the gauge, the label
names it is keyed by, the ordered label-value tuple, and the numeric
value set. -/
structure GaugeWrite where
  gauge : GaugeId
  labelNames : List String
  labelValues : List String
  value : Int
deriving DecidableEq

/-- `str(v)` as applied by the metric library to a label value. -/
def valToStr : Val → String
  | .s v => v
  | .i v => toString v

/-- The value placed in `metric_labels` for one label name (line 222):
`container_data.get(label_name, '')`. -/
def labelValueFor (data : List (String × Val)) (l : String) : String :=
  match dget? data l with
  | some v => valToStr v
  | none => ""

/-- The ordered label-value tuple the metric library derives from the
`metric_labels` dict: one value per configured label name, in the
configured order. -/
def metricLabelValues (allLabels : List String) (data : List (String × Val)) :
    List String :=
  allLabels.map (labelValueFor data)

/-- `HEALTH_STATUS.get(value, 3)` on the stored health-status value: a
non-string key (impossible for the keys this dict holds) misses and
yields the default 3. -/
def healthGaugeOfVal : Val → Nat
  | .s v => healthStatusGet v
  | .i _ => 3

/-- Decimal-digit run parser used to model numeric string conversion. -/
def parseDigits (cs : List Char) : Option Nat :=
  match cs with
  | [] => none
  | _ =>
    if cs.all Char.isDigit then
      some (cs.foldl (fun acc c => acc * 10 + (c.toNat - 48)) 0)
    else none

/-- Integer-formatted-string parser: an optional leading minus sign
followed by decimal digits. -/
def parseIntStr (s : String) : Option Int :=
  match s.data with
  | '-' :: cs => (parseDigits cs).map (fun n => -(n : Int))
  | cs => (parseDigits cs).map (fun n => (n : Int))

/-- Python `float(v)` as applied by `Gauge.set`, restricted to the values
this program produces: integers pass through, integer-formatted strings
parse, and a string with no numeric reading raises `ValueError`. -/
def valToFloat : Val → Except String Int
  | .i v => Except.ok v
  | .s v =>
    match parseIntStr v with
    | some n => Except.ok n
    | none => Except.error "ValueError"

/-- The per-container body of the `update_metrics` loop (lines 207-240):
the name resolution of line 209, then filter, inspect, and the two
`labels(...).set(...)` calls in source order. Returns the writes that
completed before any raise, paired with the error (if one was raised)
that the per-container `except` handler catches. Line 209
(`container.name if hasattr(container, 'name') else str(container.id)[:12]`)
raises `AttributeError` before anything else runs when the container has
neither a `name` nor an `id` attribute, so such a container is skipped
with no writes; the `labels` call raises before any write when the
configured label names contain a duplicate (the kwargs dict then
mismatches the gauge's label names); the health `set` happens before the
streak `set`, so a failing streak conversion leaves the health write in
place. -/
def processContainer (allLabels : List String) (lm : List (String × String))
    (optInOnly : Bool) (c : Container) : List GaugeWrite × Option String :=
  if c.name = none ∧ c.id = none then ([], some "AttributeError")
  else if should_monitor_container c optInOnly then
    if allLabels.Nodup then
      match dget? (get_container_health c lm) "health_status" with
      | none => ([], some "KeyError")
      | some hv =>
        match dget? (get_container_health c lm) "failure_streak" with
        | none =>
          ([⟨GaugeId.health, allLabels,
             metricLabelValues allLabels (get_container_health c lm),
             (healthGaugeOfVal hv : Int)⟩], some "KeyError")
        | some sv =>
          match valToFloat sv with
          | Except.error e =>
            ([⟨GaugeId.health, allLabels,
               metricLabelValues allLabels (get_container_health c lm),
               (healthGaugeOfVal hv : Int)⟩], some e)
          | Except.ok n =>
            ([⟨GaugeId.health, allLabels,
               metricLabelValues allLabels (get_container_health c lm),
               (healthGaugeOfVal hv : Int)⟩,
              ⟨GaugeId.streak, allLabels,
               metricLabelValues allLabels (get_container_health c lm), n⟩],
             none)
    else ([], some "ValueError")
  else ([], none)

/-- `update_metrics` over one listed batch (lines 206-240): each
container's writes are appended in listing order; a per-container error
is caught and the loop continues with the next container. -/
def update_metrics (allLabels : List String) (lm : List (String × String))
    (optInOnly : Bool) : List Container → List GaugeWrite
  | [] => []
  | c :: rest =>
    (processContainer allLabels lm optInOnly c).1 ++
      update_metrics allLabels lm optInOnly rest

/-- Concrete container used by witnesses: opted out via the label value
`"False"`. -/
def cOptOut : Container :=
  ⟨some "abcdef1234567890", some "c2", none,
   some ⟨some ⟨some [("prometheus.health.enabled", "False")]⟩, none⟩⟩

/-- Concrete label map carrying both compose-style and swarm-style keys,
used by the C7 witness. -/
def lsBoth : List (String × String) :=
  [("com.docker.compose.project", "cp"), ("com.docker.compose.service", "cs"),
   ("com.docker.stack.namespace", "sp"), ("com.docker.swarm.service.name", "ss")]

/-- Concrete container whose `Config.Labels` is null: accessing it raises
inside the filter, which catches the error and reports not eligible. -/
def cNullLabels : Container :=
  ⟨some "abcdef1234567890", some "c8", none, some ⟨some ⟨none⟩, none⟩⟩

/-- Concrete container with a readable, empty label map (no
preference). -/
def cNoPref : Container :=
  ⟨some "abcdef1234567890", some "c8b", none, some ⟨some ⟨some []⟩, none⟩⟩

/-- Concrete healthy container: empty label map, a health block with
status `"healthy"` and failing streak 2. -/
def cHealthy : Container :=
  ⟨some "abcdef1234567890", some "ch", none,
   some ⟨some ⟨some []⟩, some ⟨some ⟨some "healthy", some 2⟩⟩⟩⟩

/-- Concrete container carrying the label `l = "abc"`, used with a custom
mapping that targets the `failure_streak` field. -/
def cStreakOverwrite : Container :=
  ⟨some "abcdef1234567890", some "c5", none,
   some ⟨some ⟨some [("l", "abc")]⟩, some ⟨none⟩⟩⟩

/-- Concrete container whose health block reports a negative failing
streak. -/
def cNegStreak : Container :=
  ⟨some "abcdef1234567890", some "c9", none,
   some ⟨some ⟨some []⟩, some ⟨some ⟨some "unhealthy", some (-1)⟩⟩⟩⟩

/-- Concrete container whose health block is present but has no `Status`
key, so line 162's indexing raises and the inspector's handler runs. -/
def cMissingStatus : Container :=
  ⟨some "abcdef1234567890", some "c10", none,
   some ⟨some ⟨some []⟩, some ⟨some ⟨none, some 5⟩⟩⟩⟩

/-- The ordered label-value tuple produced for `cHealthy` under the base
schema. -/
def cHealthyVals : List String := ["abcdef123456", "ch", "unknown", "", ""]

/-- Helper: any entry of the `HEALTH_STATUS` dict has value at most 3. -/
theorem healthStatusGet_le_three (st : String) : healthStatusGet st ≤ 3 := by
  unfold healthStatusGet
  rcases h : HEALTH_STATUS.find? (fun p => p.1 == st) with _ | p
  · rw [h]
  · rw [h]
    have hmem : p ∈ HEALTH_STATUS := List.mem_of_find?_eq_some h
    have hall : ∀ q ∈ HEALTH_STATUS, q.2 ≤ 3 := by decide
    exact hall p hmem

/-- Helper: a string other than the three recognized statuses and
`"none"` misses the dict, and `"none"` maps to 3, so every unrecognized
status yields 3. -/
theorem healthStatusGet_other (st : String) (h1 : st ≠ "unhealthy")
    (h2 : st ≠ "healthy") (h3 : st ≠ "starting") : healthStatusGet st = 3 := by
  by_cases h4 : st = "none"
  · subst h4; rfl
  · have e1 : (("unhealthy" : String) == st) = false :=
      beq_eq_false_iff_ne.mpr (Ne.symm h1)
    have e2 : (("healthy" : String) == st) = false :=
      beq_eq_false_iff_ne.mpr (Ne.symm h2)
    have e3 : (("starting" : String) == st) = false :=
      beq_eq_false_iff_ne.mpr (Ne.symm h3)
    have e4 : (("none" : String) == st) = false :=
      beq_eq_false_iff_ne.mpr (Ne.symm h4)
    simp [healthStatusGet, HEALTH_STATUS, List.find?, e1, e2, e3, e4]

/-- Claim C1: the health classifier is total (a function over all
strings) and maps exactly: `"unhealthy"` to 0, `"healthy"` to 1,
`"starting"` to 2, and any other string (including the empty string,
which is what an absent status or a container without a health check
reduces to before the explicit `"none"` default) to 3; it agrees
everywhere with the spec's `HealthState` classifier composed with the
ordinal gauge mapping. -/
theorem c1_health_classifier_exact :
    healthStatusGet "unhealthy" = 0 ∧ healthStatusGet "healthy" = 1 ∧
    healthStatusGet "starting" = 2 ∧ healthStatusGet "" = 3 ∧
    (∀ st : String, st ≠ "unhealthy" → st ≠ "healthy" → st ≠ "starting" →
      healthStatusGet st = 3) ∧
    (∀ st : String, healthStatusGet st = (classifySpec st).gauge) := by
  refine ⟨rfl, rfl, rfl, rfl, healthStatusGet_other, ?_⟩
  intro st
  by_cases h1 : st = "unhealthy"
  · subst h1; rfl
  · by_cases h2 : st = "healthy"
    · subst h2; rfl
    · by_cases h3 : st = "starting"
      · subst h3; rfl
      · rw [healthStatusGet_other st h1 h2 h3]
        simp [classifySpec, h1, h2, h3, HealthState.gauge]

/-- Witness for C1 at the concrete unrecognized status `"flapping"`. -/
theorem c1_health_classifier_exact_witness : healthStatusGet "flapping" = 3 :=
  c1_health_classifier_exact.2.2.2.2.1 "flapping" (by decide) (by decide)
    (by decide)

/-- Claim C2: a container whose opt-out label value lowercases to
`"false"` is never monitored, in either mode. -/
theorem c2_opt_out_always_wins (c : Container) (optInOnly : Bool)
    (ls : List (String × String)) (hLs : filterLabels c = some ls)
    (hOut : pyLower (lookupD ls "prometheus.health.enabled" "") = "false") :
    should_monitor_container c optInOnly = false := by
  unfold should_monitor_container
  rw [hLs]
  simp [hOut]

/-- Witness for C2: the concrete opted-out container, in opt-in-only
mode. -/
theorem c2_opt_out_always_wins_witness :
    should_monitor_container cOptOut true = false :=
  c2_opt_out_always_wins cOptOut true
    [("prometheus.health.enabled", "False")] rfl (by decide)

/-- Claim C3 counterexample: with the no-defaults flag false and a custom
mapping whose value collides with a base label, the schema keeps the
colliding value instead of excluding it, so it contains a duplicate name
(the claim predicts the schema `BASE_LABELS` with the collision excluded
and asserts the schema is duplicate-free). -/
theorem c3_counterexample_no_exclusion :
    ALL_LABELS false [("x", "container_id")] ≠ BASE_LABELS ∧
    ¬ (ALL_LABELS false [("x", "container_id")]).Nodup := by
  exact ⟨by decide, by decide⟩

/-- Claim C3 (amended): with the no-defaults flag false the resolved
schema is the base labels followed by all values of the custom mapping in
the mapping's iteration order, with no deduplication and no exclusion of
values already present among the base labels (so the schema can contain
duplicate names). -/
theorem c3_schema_base_plus_custom (lm : List (String × String)) :
    ALL_LABELS false lm = BASE_LABELS ++ lm.map Prod.snd := rfl

/-- Claim C4 counterexample: with the no-defaults flag true, a non-empty
mapping whose two keys map to the same value yields a schema with a
duplicate name, contradicting the claim's "no duplicate names". -/
theorem c4_counterexample_duplicate_values :
    ALL_LABELS true [("a", "x"), ("b", "x")] = ["x", "x"] ∧
    ¬ (ALL_LABELS true [("a", "x"), ("b", "x")]).Nodup := by
  exact ⟨rfl, by decide⟩

/-- Claim C4 (amended): with the no-defaults flag true, an empty custom
mapping yields exactly the single-element fallback schema
`["container_id"]`, and a non-empty custom mapping yields exactly the
mapping's values with order preserved — duplicates are kept when values
repeat, so the schema is duplicate-free only when the mapping's values
are distinct. -/
theorem c4_no_defaults_schema :
    ALL_LABELS true [] = ["container_id"] ∧
    (∀ lm : List (String × String), lm ≠ [] →
      ALL_LABELS true lm = lm.map Prod.snd) := by
  refine ⟨rfl, ?_⟩
  intro lm h
  have hm : lm.map Prod.snd ≠ [] := by
    simpa [List.map_eq_nil_iff] using h
  simp [ALL_LABELS, hm]

/-- Witness for C4 at a concrete non-empty mapping. -/
theorem c4_no_defaults_schema_witness : ALL_LABELS true [("a", "x")] = ["x"] :=
  c4_no_defaults_schema.2 [("a", "x")] (by decide)

/-- Helper: dict lookup skips a head entry with a different key. -/
theorem dget?_cons_ne (a k : String) (h : (a == k) = false) (x : Val)
    (t : List (String × Val)) : dget? ((a, x) :: t) k = dget? t k := by
  simp [dget?, List.find?, h]

/-- Helper: dict lookup finds a head entry with the same key. -/
theorem dget?_cons_eq (a k : String) (h : (a == k) = true) (x : Val)
    (t : List (String × Val)) : dget? ((a, x) :: t) k = some x := by
  simp [dget?, List.find?, h]

/-- Helper: looking up a key after a dict assignment. -/
theorem dget?_dset (d : List (String × Val)) (k k2 : String) (v : Val) :
    dget? (dset d k2 v) k = if k2 = k then some v else dget? d k := by
  induction d with
  | nil =>
    by_cases h : k2 = k
    · simp [dset, dget?, List.find?, h]
    · simp [dset, dget?, List.find?, h, beq_eq_false_iff_ne.mpr h]
  | cons p rest ih =>
    obtain ⟨a, b⟩ := p
    by_cases h1 : a = k2
    · subst h1
      by_cases h2 : a = k
      · subst h2
        simp [dset, dget?, List.find?]
      · simp [dset, dget?, List.find?, h2, beq_eq_false_iff_ne.mpr h2]
    · have e1 : dset ((a, b) :: rest) k2 v = (a, b) :: dset rest k2 v := by
        simp [dset, beq_eq_false_iff_ne.mpr h1]
      by_cases h2 : a = k
      · subst h2
        rw [e1]
        have hk : k2 ≠ a := Ne.symm h1
        simp [dget?, List.find?, hk]
      · have e2 : ∀ (x : Val) (t : List (String × Val)),
            dget? ((a, x) :: t) k = dget? t k := by
          intro x t
          simp [dget?, List.find?, beq_eq_false_iff_ne.mpr h2]
        rw [e1, e2, ih]
        by_cases h3 : k2 = k
        · simp [h3]
        · simp [h3, e2]

/-- Helper: the custom-label loop of `buildResult` preserves presence of
any key already in the dict. -/
theorem dget?_foldl_isSome (labels : List (String × String)) (key : String) :
    ∀ (lm : List (String × String)) (d : List (String × Val)),
      (dget? d key).isSome = true →
      (dget? (lm.foldl (fun r p => dset r p.2 (Val.s (lookupD labels p.1 ""))) d)
        key).isSome = true := by
  intro lm
  induction lm with
  | nil =>
    intro d h
    simpa using h
  | cons p rest ih =>
    intro d h
    rw [List.foldl_cons]
    apply ih
    rw [dget?_dset]
    by_cases h2 : p.2 = key
    · simp [h2]
    · simpa [h2] using h

/-- Helper: the custom-label loop leaves any key it never assigns
unchanged. -/
theorem dget?_foldl_notin (labels : List (String × String)) (key : String) :
    ∀ (lm : List (String × String)) (d : List (String × Val)),
      key ∉ lm.map Prod.snd →
      dget? (lm.foldl (fun r p => dset r p.2 (Val.s (lookupD labels p.1 ""))) d)
        key = dget? d key := by
  intro lm
  induction lm with
  | nil =>
    intro d _
    rfl
  | cons p rest ih =>
    intro d hnot
    have h1 : key ≠ p.2 := by
      intro hh
      exact hnot (by simp [hh])
    have h2 : key ∉ rest.map Prod.snd := by
      intro hh
      exact hnot (by simp [hh])
    have h3 : ¬ p.2 = key := fun hh => h1 hh.symm
    rw [List.foldl_cons, ih _ h2, dget?_dset, if_neg h3]

/-- Helper equation: the inspector's error path on a null label map. -/
theorem gch_nullLabels (c : Container) (lm : List (String × String))
    (h : inspectorLabels c = none) :
    get_container_health c lm = minimalResult c := by
  unfold get_container_health
  rw [h]

/-- Helper equation: the inspector path with no health block. -/
theorem gch_noHealth (c : Container) (lm ls : List (String × String))
    (h1 : inspectorLabels c = some ls) (h2 : healthBlock c = none) :
    get_container_health c lm = buildResult c ls "none" 0 lm := by
  unfold get_container_health
  rw [h1, h2]

/-- Helper equation: the inspector's error path on a health block with a
missing `Status` key. -/
theorem gch_noStatus (c : Container) (lm ls : List (String × String))
    (hb : HealthInfo) (h1 : inspectorLabels c = some ls)
    (h2 : healthBlock c = some hb) (h3 : hb.status = none) :
    get_container_health c lm = minimalResult c := by
  unfold get_container_health
  rw [h1, h2]
  show (match hb.status with
    | none => minimalResult c
    | some hs => buildResult c ls hs (hb.failingStreak.getD 0) lm) =
      minimalResult c
  rw [h3]

/-- Helper equation: the inspector path with a readable health block. -/
theorem gch_health (c : Container) (lm ls : List (String × String))
    (hb : HealthInfo) (hs : String) (h1 : inspectorLabels c = some ls)
    (h2 : healthBlock c = some hb) (h3 : hb.status = some hs) :
    get_container_health c lm =
      buildResult c ls hs (hb.failingStreak.getD 0) lm := by
  unfold get_container_health
  rw [h1, h2]
  show (match hb.status with
    | none => minimalResult c
    | some hs2 => buildResult c ls hs2 (hb.failingStreak.getD 0) lm) =
      buildResult c ls hs (hb.failingStreak.getD 0) lm
  rw [h3]

/-- Helper: the minimal record holds the health-status field. -/
theorem dget?_minimal_health (c : Container) :
    dget? (minimalResult c) "health_status" = some (Val.s "none") := by
  unfold minimalResult
  rw [dget?_cons_ne _ _ (by decide), dget?_cons_eq _ _ (by decide)]

/-- Helper: the minimal record holds the failure-streak field. -/
theorem dget?_minimal_streak (c : Container) :
    dget? (minimalResult c) "failure_streak" = some (Val.i 0) := by
  unfold minimalResult
  rw [dget?_cons_ne _ _ (by decide), dget?_cons_ne _ _ (by decide),
    dget?_cons_eq _ _ (by decide)]

/-- Helper: the minimal record holds the container identity. -/
theorem dget?_minimal_id (c : Container) :
    dget? (minimalResult c) "container_id" = some (Val.s (idPrefix c)) := by
  unfold minimalResult
  rw [dget?_cons_eq _ _ (by decide)]

/-- Helper: the minimal record holds nothing else. -/
theorem dget?_minimal_other (c : Container) (l : String)
    (h1 : l ≠ "container_id") (h2 : l ≠ "health_status")
    (h3 : l ≠ "failure_streak") : dget? (minimalResult c) l = none := by
  unfold minimalResult
  rw [dget?_cons_ne _ _ (beq_eq_false_iff_ne.mpr (Ne.symm h1)),
    dget?_cons_ne _ _ (beq_eq_false_iff_ne.mpr (Ne.symm h2)),
    dget?_cons_ne _ _ (beq_eq_false_iff_ne.mpr (Ne.symm h3))]
  rfl

/-- Helper: the full record literal holds the health-status field. -/
theorem dget?_base_health (c : Container) (ls : List (String × String))
    (hs : String) (fs : Int) :
    dget? (baseResult c ls hs fs) "health_status" = some (Val.s hs) := by
  unfold baseResult
  rw [dget?_cons_ne _ _ (by decide), dget?_cons_ne _ _ (by decide),
    dget?_cons_ne _ _ (by decide), dget?_cons_ne _ _ (by decide),
    dget?_cons_ne _ _ (by decide), dget?_cons_eq _ _ (by decide)]

/-- Helper: the full record literal holds the failure-streak field. -/
theorem dget?_base_streak (c : Container) (ls : List (String × String))
    (hs : String) (fs : Int) :
    dget? (baseResult c ls hs fs) "failure_streak" = some (Val.i fs) := by
  unfold baseResult
  rw [dget?_cons_ne _ _ (by decide), dget?_cons_ne _ _ (by decide),
    dget?_cons_ne _ _ (by decide), dget?_cons_ne _ _ (by decide),
    dget?_cons_ne _ _ (by decide), dget?_cons_ne _ _ (by decide),
    dget?_cons_eq _ _ (by decide)]

/-- Helper: the full record literal holds the resolved project. -/
theorem dget?_base_project (c : Container) (ls : List (String × String))
    (hs : String) (fs : Int) :
    dget? (baseResult c ls hs fs) "project" = some (Val.s (resolveProject ls)) := by
  unfold baseResult
  rw [dget?_cons_ne _ _ (by decide), dget?_cons_ne _ _ (by decide),
    dget?_cons_ne _ _ (by decide), dget?_cons_eq _ _ (by decide)]

/-- Helper: the full record literal holds the resolved service. -/
theorem dget?_base_service (c : Container) (ls : List (String × String))
    (hs : String) (fs : Int) :
    dget? (baseResult c ls hs fs) "service" = some (Val.s (resolveService ls)) := by
  unfold baseResult
  rw [dget?_cons_ne _ _ (by decide), dget?_cons_ne _ _ (by decide),
    dget?_cons_ne _ _ (by decide), dget?_cons_ne _ _ (by decide),
    dget?_cons_eq _ _ (by decide)]

/-- Helper: every inspector result carries the health-status and
failure-streak fields. -/
theorem gch_keys_present (c : Container) (lm : List (String × String)) :
    (dget? (get_container_health c lm) "health_status").isSome = true ∧
    (dget? (get_container_health c lm) "failure_streak").isSome = true := by
  rcases h1 : inspectorLabels c with _ | ls
  · rw [gch_nullLabels c lm h1, dget?_minimal_health, dget?_minimal_streak]
    exact ⟨rfl, rfl⟩
  · rcases h2 : healthBlock c with _ | hb
    · rw [gch_noHealth c lm ls h1 h2]
      unfold buildResult
      exact ⟨dget?_foldl_isSome ls "health_status" lm _
          (by rw [dget?_base_health]; rfl),
        dget?_foldl_isSome ls "failure_streak" lm _
          (by rw [dget?_base_streak]; rfl)⟩
    · rcases h3 : hb.status with _ | hs
      · rw [gch_noStatus c lm ls hb h1 h2 h3, dget?_minimal_health,
          dget?_minimal_streak]
        exact ⟨rfl, rfl⟩
      · rw [gch_health c lm ls hb hs h1 h2 h3]
        unfold buildResult
        exact ⟨dget?_foldl_isSome ls "health_status" lm _
            (by rw [dget?_base_health]; rfl),
          dget?_foldl_isSome ls "failure_streak" lm _
            (by rw [dget?_base_streak]; rfl)⟩

/-- Claim C6: within one tick, a failing per-container step is caught and
skipped — the writes of every other container in the batch are unchanged
by its presence and the loop processes the whole listing; moreover the
inspector is total and always yields a record carrying the health-status
and failure-streak fields (so neither the classifier, which is a total
function, nor the inspector propagates an exception out of the
per-container step). -/
theorem c6_per_container_failure_isolated :
    (∀ (allLabels : List String) (lm : List (String × String)) (optInOnly : Bool)
        (xs : List Container) (c : Container) (ys : List Container),
      update_metrics allLabels lm optInOnly (xs ++ c :: ys) =
        update_metrics allLabels lm optInOnly xs ++
          (processContainer allLabels lm optInOnly c).1 ++
          update_metrics allLabels lm optInOnly ys) ∧
    (∀ (c : Container) (lm : List (String × String)),
      (dget? (get_container_health c lm) "health_status").isSome = true ∧
      (dget? (get_container_health c lm) "failure_streak").isSome = true) := by
  constructor
  · intro aL lm o xs c ys
    induction xs with
    | nil => simp [update_metrics]
    | cons x rest ih => simp [update_metrics, ih]
  · exact gch_keys_present

/-- Claim C7: the inspector resolves the project from the compose project
label, falling back to the swarm stack-namespace label only when the
compose value is empty, and the service from the compose service label,
falling back to the swarm service-name label only when that compose value
is empty; the two fallbacks are independent, and the record built on the
non-exception path stores exactly these resolved values. -/
theorem c7_grouping_two_tier_fallback :
    (∀ ls : List (String × String),
      (lookupD ls "com.docker.compose.project" "" ≠ "" →
        resolveProject ls = lookupD ls "com.docker.compose.project" "") ∧
      (lookupD ls "com.docker.compose.project" "" = "" →
        resolveProject ls = lookupD ls "com.docker.stack.namespace" "") ∧
      (lookupD ls "com.docker.compose.service" "" ≠ "" →
        resolveService ls = lookupD ls "com.docker.compose.service" "") ∧
      (lookupD ls "com.docker.compose.service" "" = "" →
        resolveService ls = lookupD ls "com.docker.swarm.service.name" "")) ∧
    (∀ (c : Container) (ls : List (String × String)),
      inspectorLabels c = some ls → healthBlock c = none →
      dget? (get_container_health c []) "project" =
        some (Val.s (resolveProject ls)) ∧
      dget? (get_container_health c []) "service" =
        some (Val.s (resolveService ls))) := by
  constructor
  · intro ls
    refine ⟨?_, ?_, ?_, ?_⟩ <;> intro h <;>
      simp [resolveProject, resolveService, h]
  · intro c ls h1 h2
    rw [gch_noHealth c [] ls h1 h2]
    unfold buildResult
    rw [List.foldl_nil]
    exact ⟨dget?_base_project c ls "none" 0, dget?_base_service c ls "none" 0⟩

/-- Witness for C7: with both compose and swarm labels present, the
compose values win for both project and service. -/
theorem c7_grouping_two_tier_fallback_witness :
    resolveProject lsBoth = lookupD lsBoth "com.docker.compose.project" "" ∧
    resolveService lsBoth = lookupD lsBoth "com.docker.compose.service" "" :=
  ⟨(c7_grouping_two_tier_fallback.1 lsBoth).1 (by decide),
   (c7_grouping_two_tier_fallback.1 lsBoth).2.2.1 (by decide)⟩

/-- Claim C8 counterexample: a container whose label data is malformed (a
null label map, which makes the label access raise) is marked not
eligible even though opt-in-only mode is not active — the claim predicts
eligible. -/
theorem c8_counterexample_malformed_not_eligible :
    should_monitor_container cNullLabels false = false := by decide

/-- Claim C8 (amended): the filter is total (every exception is caught
inside it); when the label map is readable and the opt-out label is
absent, the container is treated as "no preference" and is eligible
exactly when opt-in-only mode is not active; label data whose access
raises (missing attrs or a null label map) is caught and yields not
eligible. -/
theorem c8_filter_total_absent_no_preference (c : Container) (optInOnly : Bool) :
    (∀ ls : List (String × String), filterLabels c = some ls →
      lookupD ls "prometheus.health.enabled" "" = "" →
      should_monitor_container c optInOnly = !optInOnly) ∧
    (filterLabels c = none → should_monitor_container c optInOnly = false) := by
  constructor
  · intro ls h1 h2
    have e1 : (pyLower (lookupD ls "prometheus.health.enabled" "") == "false") =
        false := by
      rw [h2]; decide
    have e2 : (pyLower (lookupD ls "prometheus.health.enabled" "") != "true") =
        true := by
      rw [h2]; decide
    unfold should_monitor_container
    rw [h1]
    cases optInOnly <;> simp [e1, e2]
  · intro h
    unfold should_monitor_container
    rw [h]

/-- Witness for C8: the no-preference container is eligible when
opt-in-only mode is off. -/
theorem c8_filter_total_absent_no_preference_witness :
    should_monitor_container cNoPref false = true :=
  (c8_filter_total_absent_no_preference cNoPref false).1 [] rfl rfl

/-- Helper: the classifier value is bounded by 3 whatever value is stored
in the health-status field. -/
theorem healthGaugeOfVal_le_three (v : Val) : healthGaugeOfVal v ≤ 3 := by
  cases v with
  | s v => exact healthStatusGet_le_three v
  | i v => exact le_refl 3

/-- Helper: when the custom mapping never targets the failure-streak
field, the inspector result stores exactly the streak the inspection path
read from the descriptor. -/
theorem dget?_gch_streak (c : Container) (lm : List (String × String))
    (hnot : "failure_streak" ∉ lm.map Prod.snd) :
    dget? (get_container_health c lm) "failure_streak" =
      some (Val.i (inspectedStreak c)) := by
  rcases h1 : inspectorLabels c with _ | ls
  · rw [gch_nullLabels c lm h1, dget?_minimal_streak]
    unfold inspectedStreak
    rw [h1]
  · rcases h2 : healthBlock c with _ | hb
    · rw [gch_noHealth c lm ls h1 h2]
      unfold buildResult
      rw [dget?_foldl_notin ls "failure_streak" lm _ hnot, dget?_base_streak]
      unfold inspectedStreak
      rw [h1, h2]
    · rcases h3 : hb.status with _ | hs
      · rw [gch_noStatus c lm ls hb h1 h2 h3, dget?_minimal_streak]
        unfold inspectedStreak
        rw [h1, h2]
        show some (Val.i 0) = some (Val.i (match hb.status with
          | none => 0
          | some _ => hb.failingStreak.getD 0))
        rw [h3]
      · rw [gch_health c lm ls hb hs h1 h2 h3]
        unfold buildResult
        rw [dget?_foldl_notin ls "failure_streak" lm _ hnot, dget?_base_streak]
        unfold inspectedStreak
        rw [h1, h2]
        show some (Val.i (hb.failingStreak.getD 0)) = some (Val.i (match hb.status with
          | none => 0
          | some _ => hb.failingStreak.getD 0))
        rw [h3]

/-- Helper: exhaustive shape of the write list one container produces —
nothing, only the health write (a later raise was caught), or the health
write followed by the streak write, always with the schema's label names
and the tuple derived from the inspector record. -/
theorem processContainer_writes_shape (allLabels : List String)
    (lm : List (String × String)) (optInOnly : Bool) (c : Container) :
    (processContainer allLabels lm optInOnly c).1 = [] ∨
    (∃ hv, dget? (get_container_health c lm) "health_status" = some hv ∧
      ((processContainer allLabels lm optInOnly c).1 =
        [⟨GaugeId.health, allLabels,
          metricLabelValues allLabels (get_container_health c lm),
          (healthGaugeOfVal hv : Int)⟩] ∨
       (∃ sv n, dget? (get_container_health c lm) "failure_streak" = some sv ∧
         valToFloat sv = Except.ok n ∧
         (processContainer allLabels lm optInOnly c).1 =
          [⟨GaugeId.health, allLabels,
            metricLabelValues allLabels (get_container_health c lm),
            (healthGaugeOfVal hv : Int)⟩,
           ⟨GaugeId.streak, allLabels,
            metricLabelValues allLabels (get_container_health c lm), n⟩]))) := by
  unfold processContainer
  split
  · exact Or.inl rfl
  · split
    · split
      · split
        · exact Or.inl rfl
        · rename_i hv heq
          split
          · exact Or.inr ⟨hv, heq, Or.inl rfl⟩
          · rename_i sv heq2
            split
            · exact Or.inr ⟨hv, heq, Or.inl rfl⟩
            · rename_i n heq3
              exact Or.inr ⟨hv, heq, Or.inr ⟨sv, n, heq2, heq3, rfl⟩⟩
      · exact Or.inl rfl
    · exact Or.inl rfl

/-- Claim C5 counterexample: with the custom mapping sending container
label `l` to the metric label `failure_streak` and a container whose `l`
value is the non-numeric string `"abc"`, the record is emitted with only
the health gauge written — the streak `set` raises after the health write
and the error is caught — so the two gauges are not both written for this
emitted record. -/
theorem c5_counterexample_partial_write :
    ((processContainer (ALL_LABELS false [("l", "failure_streak")])
        [("l", "failure_streak")] false cStreakOverwrite).1).map GaugeWrite.gauge =
      [GaugeId.health] ∧
    (processContainer (ALL_LABELS false [("l", "failure_streak")])
        [("l", "failure_streak")] false cStreakOverwrite).2 = some "ValueError" := by
  exact ⟨by decide, by decide⟩

/-- Claim C5 (amended): every write a container's step emits carries
exactly the resolved schema's label names and the label-value tuple
derived from the record in schema order (so its length equals the
schema's); and whenever both gauges are written for a record they carry
the identical label tuple, health first then streak. The two gauges can
fail to be written together only when a raise is caught after the health
write (possible only when a custom mapping overwrites the failure-streak
field with a value whose numeric conversion fails). -/
theorem c5_label_tuples_schema (allLabels : List String)
    (lm : List (String × String)) (optInOnly : Bool) (c : Container) :
    (∀ w ∈ (processContainer allLabels lm optInOnly c).1,
      w.labelNames = allLabels ∧
      w.labelValues = metricLabelValues allLabels (get_container_health c lm) ∧
      w.labelValues.length = allLabels.length) ∧
    (∀ w1 w2, (processContainer allLabels lm optInOnly c).1 = [w1, w2] →
      w1.gauge = GaugeId.health ∧ w2.gauge = GaugeId.streak ∧
      w1.labelValues = w2.labelValues) := by
  rcases processContainer_writes_shape allLabels lm optInOnly c with
    h | ⟨hv, hfind, h | ⟨sv, n, hsv, hn, h⟩⟩
  · rw [h]
    constructor
    · intro w hw
      simp at hw
    · intro w1 w2 hww
      simp at hww
  · rw [h]
    constructor
    · intro w hw
      have hw2 : w = ⟨GaugeId.health, allLabels,
          metricLabelValues allLabels (get_container_health c lm),
          (healthGaugeOfVal hv : Int)⟩ := by
        simpa using hw
      subst hw2
      exact ⟨rfl, rfl, by simp [metricLabelValues]⟩
    · intro w1 w2 hww
      simp at hww
  · rw [h]
    constructor
    · intro w hw
      have hw2 : w = ⟨GaugeId.health, allLabels,
          metricLabelValues allLabels (get_container_health c lm),
          (healthGaugeOfVal hv : Int)⟩ ∨
          w = ⟨GaugeId.streak, allLabels,
            metricLabelValues allLabels (get_container_health c lm), n⟩ := by
        simpa using hw
      rcases hw2 with hw2 | hw2 <;> subst hw2 <;>
        exact ⟨rfl, rfl, by simp [metricLabelValues]⟩
    · intro w1 w2 hww
      have hw2 : (⟨GaugeId.health, allLabels,
          metricLabelValues allLabels (get_container_health c lm),
          (healthGaugeOfVal hv : Int)⟩ : GaugeWrite) = w1 ∧
          (⟨GaugeId.streak, allLabels,
            metricLabelValues allLabels (get_container_health c lm),
            n⟩ : GaugeWrite) = w2 := by
        simpa using hww
      obtain ⟨e1, e2⟩ := hw2
      subst e1
      subst e2
      exact ⟨rfl, rfl, rfl⟩

/-- Witness for C5: the healthy concrete container emits both writes with
the identical tuple under the base schema. -/
theorem c5_label_tuples_schema_witness :
    (⟨GaugeId.health, BASE_LABELS, cHealthyVals, 1⟩ : GaugeWrite).gauge =
      GaugeId.health ∧
    (⟨GaugeId.streak, BASE_LABELS, cHealthyVals, 2⟩ : GaugeWrite).gauge =
      GaugeId.streak ∧
    (⟨GaugeId.health, BASE_LABELS, cHealthyVals, 1⟩ : GaugeWrite).labelValues =
      (⟨GaugeId.streak, BASE_LABELS, cHealthyVals, 2⟩ : GaugeWrite).labelValues :=
  (c5_label_tuples_schema BASE_LABELS [] false cHealthy).2
    ⟨GaugeId.health, BASE_LABELS, cHealthyVals, 1⟩
    ⟨GaugeId.streak, BASE_LABELS, cHealthyVals, 2⟩ (by decide)

/-- Claim C9 counterexample: a descriptor reporting `FailingStreak = -1`
makes the tick emit the streak gauge value -1, which is negative — the
code forwards the descriptor value without validation. -/
theorem c9_counterexample_negative_streak :
    (update_metrics BASE_LABELS [] false [cNegStreak]).map GaugeWrite.value =
      [0, -1] ∧
    ¬ (0 : Int) ≤ -1 := by
  exact ⟨by decide, by decide⟩

/-- Claim C9 (amended): every emitted health-status value lies in 0..3;
the emitted failure-streak value equals the streak the inspection path
read from the descriptor (0 when absent or on the error path), provided
the custom mapping does not overwrite the failure-streak field — so it is
non-negative exactly when the descriptor's reported streak is, the code
performing no validation of its own. -/
theorem c9_gauge_value_ranges (allLabels : List String)
    (lm : List (String × String)) (optInOnly : Bool) (c : Container)
    (w : GaugeWrite) (hw : w ∈ (processContainer allLabels lm optInOnly c).1) :
    (w.gauge = GaugeId.health → 0 ≤ w.value ∧ w.value ≤ 3) ∧
    (w.gauge = GaugeId.streak → "failure_streak" ∉ lm.map Prod.snd →
      w.value = inspectedStreak c ∧
      (0 ≤ inspectedStreak c → 0 ≤ w.value)) := by
  rcases processContainer_writes_shape allLabels lm optInOnly c with
    h | ⟨hv, hfind, h | ⟨sv, n, hsv, hn, h⟩⟩
  · rw [h] at hw
    simp at hw
  · rw [h] at hw
    have hw2 : w = ⟨GaugeId.health, allLabels,
        metricLabelValues allLabels (get_container_health c lm),
        (healthGaugeOfVal hv : Int)⟩ := by
      simpa using hw
    subst hw2
    constructor
    · intro _
      constructor
      · show (0 : Int) ≤ (healthGaugeOfVal hv : Int)
        exact_mod_cast Nat.zero_le _
      · show (healthGaugeOfVal hv : Int) ≤ 3
        exact_mod_cast healthGaugeOfVal_le_three hv
    · intro hg
      cases hg
  · rw [h] at hw
    have hw2 : w = ⟨GaugeId.health, allLabels,
        metricLabelValues allLabels (get_container_health c lm),
        (healthGaugeOfVal hv : Int)⟩ ∨
        w = ⟨GaugeId.streak, allLabels,
          metricLabelValues allLabels (get_container_health c lm), n⟩ := by
      simpa using hw
    rcases hw2 with hw2 | hw2 <;> subst hw2
    · constructor
      · intro _
        constructor
        · show (0 : Int) ≤ (healthGaugeOfVal hv : Int)
          exact_mod_cast Nat.zero_le _
        · show (healthGaugeOfVal hv : Int) ≤ 3
          exact_mod_cast healthGaugeOfVal_le_three hv
      · intro hg
        cases hg
    · constructor
      · intro hg
        cases hg
      · intro _ hnot
        rw [dget?_gch_streak c lm hnot] at hsv
        have e1 : Val.i (inspectedStreak c) = sv := by
          injection hsv
        subst e1
        have e2 : inspectedStreak c = n := by
          simpa [valToFloat] using hn
        subst e2
        exact ⟨rfl, fun h0 => h0⟩

/-- Witness for C9: the streak write of the healthy concrete container
equals the streak its descriptor reported. -/
theorem c9_gauge_value_ranges_witness :
    (⟨GaugeId.streak, BASE_LABELS, cHealthyVals, 2⟩ : GaugeWrite).value =
      inspectedStreak cHealthy :=
  ((c9_gauge_value_ranges BASE_LABELS [] false cHealthy
    ⟨GaugeId.streak, BASE_LABELS, cHealthyVals, 2⟩ (by decide)).2 rfl
    (by decide)).1

/-- Claim C10: when the inspector's extraction raises (a null label map,
or a health block with no `Status` key), its result is exactly the
minimal record — the 12-character identity prefix (or `"unknown"`),
health status `"none"` and streak 0 — and, for a container that carries a
name or an id attribute (so that the per-container step survives the
name resolution of line 209 and reaches the inspector at all), emission
still proceeds: both gauges are written, with value 3 for health and 0
for streak, the identity filling the `container_id` schema slot and the
empty string filling every other schema label, so the container is
reported rather than dropped. -/
theorem c10_exception_still_reported (c : Container)
    (lm : List (String × String)) (allLabels : List String) (optInOnly : Bool)
    (hAttr : ¬ (c.name = none ∧ c.id = none))
    (hExc : inspectorLabels c = none ∨
      ∃ hb, healthBlock c = some hb ∧ hb.status = none)
    (hMon : should_monitor_container c optInOnly = true)
    (hNd : allLabels.Nodup) :
    get_container_health c lm = minimalResult c ∧
    (processContainer allLabels lm optInOnly c).1 =
      [⟨GaugeId.health, allLabels,
        metricLabelValues allLabels (minimalResult c), 3⟩,
       ⟨GaugeId.streak, allLabels,
        metricLabelValues allLabels (minimalResult c), 0⟩] ∧
    labelValueFor (minimalResult c) "container_id" = idPrefix c ∧
    (∀ l : String, l ≠ "container_id" → l ≠ "health_status" →
      l ≠ "failure_streak" → labelValueFor (minimalResult c) l = "") := by
  have hmin : get_container_health c lm = minimalResult c := by
    rcases h1 : inspectorLabels c with _ | ls
    · exact gch_nullLabels c lm h1
    · rcases hExc with h | ⟨hb, h2, h3⟩
      · rw [h] at h1
        cases h1
      · exact gch_noStatus c lm ls hb h1 h2 h3
  refine ⟨hmin, ?_, ?_, ?_⟩
  · unfold processContainer
    rw [hMon, hmin, dget?_minimal_health, dget?_minimal_streak, if_neg hAttr,
      if_pos hNd]
    rfl
  · unfold labelValueFor
    rw [dget?_minimal_id]
    rfl
  · intro l h1 h2 h3
    unfold labelValueFor
    rw [dget?_minimal_other c l h1 h2 h3]

/-- Witness for C10: the concrete container with a missing `Status` key
reduces to the minimal record. -/
theorem c10_exception_still_reported_witness :
    get_container_health cMissingStatus [] = minimalResult cMissingStatus :=
  (c10_exception_still_reported cMissingStatus [] BASE_LABELS false
    (by decide) (Or.inr ⟨⟨none, some 5⟩, rfl, rfl⟩) (by decide) (by decide)).1

end DockerHealth
